import Mathlib

/-!
Shallow embedding of the asteroid hazard-enrichment pipeline of
`src/Hackathlone-Frontend-Astro-Nuts/src/api/asteroid.ts`.

JavaScript `number` is modelled by `ℝ` (exact real arithmetic idealising
IEEE doubles; `Math.PI` becomes `Real.pi`, `**` becomes `Real.rpow` for the
fractional exponent).  `Array.prototype.sort` with a comparator is, since
ES2019, required to be a stable sort; for a comparator that induces a total
preorder the output of any stable sort is uniquely determined, so it is
modelled by `List.insertionSort`, which Mathlib proves stable.
-/

open Real List

noncomputable section

namespace AstroNuts

/-- `calculateImpactEnergy` from asteroid.ts (lines 130-139). -/
def calculateImpactEnergy (diameterKm velocityKmS : ℝ) : ℝ :=
  let density : ℝ := 2500
  let radiusM := (diameterKm * 1000) / 2
  let volumeM3 := (4 / 3) * Real.pi * radiusM ^ 3
  let massKg := volumeM3 * density
  let velocityMS := velocityKmS * 1000
  let energyJoules := 0.5 * massKg * velocityMS ^ 2
  let megatonsTNT := energyJoules / 4.184e15
  megatonsTNT

/-- `calculateTorinoScale` from asteroid.ts (lines 141-161): a chain of
early returns, equivalently nested conditionals. -/
def calculateTorinoScale (diameterKm energyMegatons : ℝ)
    (isPHA isSentry : Bool) : ℝ :=
  if isSentry then
    if energyMegatons > 1000000 then 10
    else if energyMegatons > 100000 then 9
    else if energyMegatons > 10000 then 8
    else if energyMegatons > 1000 then 7
    else if diameterKm > 1 then 4
    else 3
  else if isPHA then
    if energyMegatons > 100000 then 3
    else if diameterKm > 1 then 2
    else 1
  else 0

/-- `calculateCraterSize` from asteroid.ts (lines 163-166). -/
def calculateCraterSize (diameterKm velocityKmS : ℝ) : ℝ :=
  let craterDiameterKm := diameterKm * 20 * (velocityKmS / 20) ^ (0.33 : ℝ)
  craterDiameterKm

/-- `generateRiskZones` from asteroid.ts (lines 168-184): each branch pushes
its literal labels onto the initially empty `zones` array. -/
def generateRiskZones (energyMegatons : ℝ) (isPHA isSentry : Bool) :
    List String :=
  if energyMegatons > 100000 then
    ["Global Extinction Event", "Mass Extinction Event", "Global Devastation"]
  else if energyMegatons > 10000 then
    ["Continental Devastation", "Global Impact", "Multiple Continents"]
  else if energyMegatons > 1000 then
    ["Regional Damage", "Pacific Ocean", "Atlantic Ocean", "Indian Ocean"]
  else if energyMegatons > 100 then
    ["Pacific Ocean", "Coastal Japan", "Western Pacific"]
  else if energyMegatons > 10 then
    ["Remote Ocean", "Central Pacific", "North Atlantic"]
  else
    ["Remote Ocean"]

/-- `calculateImportanceScore` from asteroid.ts (lines 186-205): successive
`score +=` steps, then `Math.min(score, 10)`. -/
def calculateImportanceScore (diameterKm velocityKmS missDistanceAU : ℝ)
    (isPHA isSentry : Bool) : ℝ :=
  let score : ℝ := 0
  let score := score +
    (if diameterKm > 10 then 4 else if diameterKm > 1 then 3
     else if diameterKm > 0.5 then 2 else 1)
  let score := score +
    (if velocityKmS > 25 then 2 else if velocityKmS > 15 then 1 else 0)
  let score := score +
    (if missDistanceAU < 0.05 then 2 else if missDistanceAU < 0.2 then 1 else 0)
  let score := score + (if isSentry then 3 else if isPHA then 2 else 0)
  min score 10

/-- The raw asteroid record served by the backend: the fields of the
`AsteroidData` interface (asteroid.ts lines 80-113) minus the derived ones
(`impact`, `torino_scale`, `importance_score`), which the pipeline attaches. -/
structure RawAsteroid where
  id : String
  name : String
  nasa_jpl_url : String
  absolute_magnitude_h : ℝ
  estimated_diameter_km_min : ℝ
  estimated_diameter_km_max : ℝ
  estimated_diameter_m_min : ℝ
  estimated_diameter_m_max : ℝ
  estimated_diameter_mi_min : ℝ
  estimated_diameter_mi_max : ℝ
  estimated_diameter_ft_min : ℝ
  estimated_diameter_ft_max : ℝ
  is_potentially_hazardous_asteroid : Bool
  is_sentry_object : Bool
  close_approach_date : String
  close_approach_date_full : String
  epoch_date_close_approach : ℝ
  relative_velocity_km_s : ℝ
  relative_velocity_km_h : ℝ
  relative_velocity_mph : ℝ
  miss_distance_au : ℝ
  miss_distance_lunar : ℝ
  miss_distance_km : ℝ
  miss_distance_mi : ℝ
  orbiting_body : String

/-- The nested `impact` object of the `AsteroidData` interface. -/
structure Impact where
  energy_megatons : ℝ
  crater_km : ℝ
  risk_zones : List String

/-- The `AsteroidData` interface (asteroid.ts lines 80-113): every raw field
plus the derived `impact`, `torino_scale` and `importance_score`. -/
structure AsteroidData where
  id : String
  name : String
  nasa_jpl_url : String
  absolute_magnitude_h : ℝ
  estimated_diameter_km_min : ℝ
  estimated_diameter_km_max : ℝ
  estimated_diameter_m_min : ℝ
  estimated_diameter_m_max : ℝ
  estimated_diameter_mi_min : ℝ
  estimated_diameter_mi_max : ℝ
  estimated_diameter_ft_min : ℝ
  estimated_diameter_ft_max : ℝ
  is_potentially_hazardous_asteroid : Bool
  is_sentry_object : Bool
  close_approach_date : String
  close_approach_date_full : String
  epoch_date_close_approach : ℝ
  relative_velocity_km_s : ℝ
  relative_velocity_km_h : ℝ
  relative_velocity_mph : ℝ
  miss_distance_au : ℝ
  miss_distance_lunar : ℝ
  miss_distance_km : ℝ
  miss_distance_mi : ℝ
  orbiting_body : String
  impact : Impact
  torino_scale : ℝ
  importance_score : ℝ

/-- The per-record body of the `data.map((asteroid) => ...)` callback in
`fetchAsteroidData` (asteroid.ts lines 574-603): read the inputs, run the
five estimators, and return the spread `{...asteroid}` with the derived
fields attached. -/
def enrichAsteroid (asteroid : RawAsteroid) : AsteroidData :=
  let diameterKm := asteroid.estimated_diameter_km_max
  let velocityKmS := asteroid.relative_velocity_km_s
  let missDistanceAU := asteroid.miss_distance_au
  let isPHA := asteroid.is_potentially_hazardous_asteroid
  let isSentry := asteroid.is_sentry_object
  let energyMegatons := calculateImpactEnergy diameterKm velocityKmS
  let torinoScale := calculateTorinoScale diameterKm energyMegatons isPHA isSentry
  let craterKm := calculateCraterSize diameterKm velocityKmS
  let riskZones := generateRiskZones energyMegatons isPHA isSentry
  let importanceScore :=
    calculateImportanceScore diameterKm velocityKmS missDistanceAU isPHA isSentry
  { id := asteroid.id
    name := asteroid.name
    nasa_jpl_url := asteroid.nasa_jpl_url
    absolute_magnitude_h := asteroid.absolute_magnitude_h
    estimated_diameter_km_min := asteroid.estimated_diameter_km_min
    estimated_diameter_km_max := asteroid.estimated_diameter_km_max
    estimated_diameter_m_min := asteroid.estimated_diameter_m_min
    estimated_diameter_m_max := asteroid.estimated_diameter_m_max
    estimated_diameter_mi_min := asteroid.estimated_diameter_mi_min
    estimated_diameter_mi_max := asteroid.estimated_diameter_mi_max
    estimated_diameter_ft_min := asteroid.estimated_diameter_ft_min
    estimated_diameter_ft_max := asteroid.estimated_diameter_ft_max
    is_potentially_hazardous_asteroid := asteroid.is_potentially_hazardous_asteroid
    is_sentry_object := asteroid.is_sentry_object
    close_approach_date := asteroid.close_approach_date
    close_approach_date_full := asteroid.close_approach_date_full
    epoch_date_close_approach := asteroid.epoch_date_close_approach
    relative_velocity_km_s := asteroid.relative_velocity_km_s
    relative_velocity_km_h := asteroid.relative_velocity_km_h
    relative_velocity_mph := asteroid.relative_velocity_mph
    miss_distance_au := asteroid.miss_distance_au
    miss_distance_lunar := asteroid.miss_distance_lunar
    miss_distance_km := asteroid.miss_distance_km
    miss_distance_mi := asteroid.miss_distance_mi
    orbiting_body := asteroid.orbiting_body
    impact :=
      { energy_megatons := energyMegatons
        crater_km := craterKm
        risk_zones := riskZones }
    torino_scale := torinoScale
    importance_score := importanceScore }

/-- The ordering the comparator `(a, b) => b.importance_score -
a.importance_score` induces: `a` may be placed before `b` exactly when the
comparator is nonpositive. -/
def rankLE (a b : AsteroidData) : Prop :=
  b.importance_score - a.importance_score ≤ 0

instance : DecidableRel rankLE := fun a b =>
  inferInstanceAs (Decidable (_ ≤ _))

/-- The pure part of `fetchAsteroidData` (asteroid.ts lines 574-605): enrich
every record, then sort by `importance_score` descending with the engine's
stable sort. -/
def enrichAndRank (data : List RawAsteroid) : List AsteroidData :=
  List.insertionSort rankLE (data.map enrichAsteroid)

/-- The spec's Torino decision table (spec 4.2), written from the spec's
words: checked in order, first match wins, strict `>` comparisons; sentry
brackets 1e6/1e5/1e4/1e3, hazardous bracket 1e5, diameter bracket 1. -/
def torinoScaleSpec (diameterKm energyMt : ℝ) (isHazardous isSentry : Bool) : ℝ :=
  if isSentry then
    if energyMt > 1000000 then 10
    else if energyMt > 100000 then 9
    else if energyMt > 10000 then 8
    else if energyMt > 1000 then 7
    else if diameterKm > 1 then 4
    else 3
  else if isHazardous then
    if energyMt > 100000 then 3
    else if diameterKm > 1 then 2
    else 1
  else 0

/-- The spec's risk-zone policy (spec 4.4), written from the spec's words:
the energy thresholds 100000/10000/1000/100/10 (strict `>`) select one of
six fixed literal label lists, independently of the flags. -/
def riskZonesSpec (energyMt : ℝ) : List String :=
  if energyMt > 100000 then
    ["Global Extinction Event", "Mass Extinction Event", "Global Devastation"]
  else if energyMt > 10000 then
    ["Continental Devastation", "Global Impact", "Multiple Continents"]
  else if energyMt > 1000 then
    ["Regional Damage", "Pacific Ocean", "Atlantic Ocean", "Indian Ocean"]
  else if energyMt > 100 then
    ["Pacific Ocean", "Coastal Japan", "Western Pacific"]
  else if energyMt > 10 then
    ["Remote Ocean", "Central Pacific", "North Atlantic"]
  else
    ["Remote Ocean"]

/-- A raw record whose numeric fields are all zero; concrete fixtures below
override the fields the pipeline reads. -/
def rawZero : RawAsteroid :=
  { id := ""
    name := ""
    nasa_jpl_url := ""
    absolute_magnitude_h := 0
    estimated_diameter_km_min := 0
    estimated_diameter_km_max := 0
    estimated_diameter_m_min := 0
    estimated_diameter_m_max := 0
    estimated_diameter_mi_min := 0
    estimated_diameter_mi_max := 0
    estimated_diameter_ft_min := 0
    estimated_diameter_ft_max := 0
    is_potentially_hazardous_asteroid := false
    is_sentry_object := false
    close_approach_date := ""
    close_approach_date_full := ""
    epoch_date_close_approach := 0
    relative_velocity_km_s := 0
    relative_velocity_km_h := 0
    relative_velocity_mph := 0
    miss_distance_au := 0
    miss_distance_lunar := 0
    miss_distance_km := 0
    miss_distance_mi := 0
    orbiting_body := "" }

/-- Fixture "a" of the stability example: diameter 2 km (+3), velocity
20 km/s (+1), miss distance 0.1 AU (+1), no flags: importance score 5. -/
def rawA : RawAsteroid :=
  { rawZero with
    id := "a"
    estimated_diameter_km_max := 2
    relative_velocity_km_s := 20
    miss_distance_au := 0.1 }

/-- Fixture "b" of the stability example: same contributions as "a",
importance score 5. -/
def rawB : RawAsteroid :=
  { rawZero with
    id := "b"
    estimated_diameter_km_max := 2
    relative_velocity_km_s := 20
    miss_distance_au := 0.1 }

/-- Fixture "c" of the stability example: diameter 20 km (+4), velocity
30 km/s (+2), miss distance 0.01 AU (+2), no flags: importance score 8. -/
def rawC : RawAsteroid :=
  { rawZero with
    id := "c"
    estimated_diameter_km_max := 20
    relative_velocity_km_s := 30
    miss_distance_au := 0.01 }

/-- An invalid record: negative diameter, the data-quality error the spec
says must be rejected. -/
def rawBad : RawAsteroid :=
  { rawZero with
    id := "bad"
    estimated_diameter_km_max := -1
    relative_velocity_km_s := 20 }

/-- The exact closed form of the impact-energy fixture: shared by the
theorems about the spec's worked example. -/
lemma impactEnergy_one_twenty :
    calculateImpactEnergy 1 20 = 31250000 / 1569 * Real.pi := by
  simp only [calculateImpactEnergy]
  ring

/-- Claim C4: `calculateTorinoScale` equals the spec's fixed decision table
checked in order with strict `>` comparisons, and because `>` is strict an
input exactly at a threshold falls to the next lower bracket: a sentry
object with energy exactly 1e6 is classified 9, not 10. -/
theorem torinoScale_matches_spec_table :
    (∀ (d e : ℝ) (hz st : Bool),
      calculateTorinoScale d e hz st = torinoScaleSpec d e hz st) ∧
    (∀ (d : ℝ) (hz : Bool), calculateTorinoScale d 1000000 hz true = 9) := by
  constructor
  · intro d e hz st
    rfl
  · intro d hz
    norm_num [calculateTorinoScale]

/-- Claim C5: `generateRiskZones` returns one of six fixed literal label
lists selected solely by the energy thresholds (strict `>`): it equals the
spec's flag-free selector, energy above 100000 yields the three global
labels, energy at or below every threshold yields `["Remote Ocean"]`, and
the result is never empty. -/
theorem generateRiskZones_policy (e : ℝ) (hz st : Bool) :
    generateRiskZones e hz st = riskZonesSpec e ∧
    (100000 < e → generateRiskZones e hz st =
      ["Global Extinction Event", "Mass Extinction Event", "Global Devastation"]) ∧
    (e ≤ 10 → generateRiskZones e hz st = ["Remote Ocean"]) ∧
    generateRiskZones e hz st ≠ [] := by
  refine ⟨rfl, fun h => ?_, fun h => ?_, ?_⟩
  · simp [generateRiskZones, h]
  · have h1 : ¬ e > 100000 := by linarith
    have h2 : ¬ e > 10000 := by linarith
    have h3 : ¬ e > 1000 := by linarith
    have h4 : ¬ e > 100 := by linarith
    have h5 : ¬ e > 10 := by linarith
    simp [generateRiskZones, h1, h2, h3, h4, h5]
  · simp only [generateRiskZones]
    split_ifs <;> simp

/-- Claim C6: the `isHazardous`/`isSentry` flags have no influence on
`generateRiskZones`: any two assignments of the flags give the same list
(noninterference, two-run statement). -/
theorem generateRiskZones_flag_noninterference
    (e : ℝ) (h₁ s₁ h₂ s₂ : Bool) :
    generateRiskZones e h₁ s₁ = generateRiskZones e h₂ s₂ :=
  rfl

/-- Claim C10: the reachable outputs of `calculateTorinoScale` are exactly
0, 1, 2, 3, 4, 7, 8, 9 and 10; in particular 5 and 6 are never returned. -/
theorem torinoScale_reachable_values :
    {y : ℝ | ∃ (d e : ℝ) (hz st : Bool), calculateTorinoScale d e hz st = y} =
      {0, 1, 2, 3, 4, 7, 8, 9, 10} := by
  ext y
  simp only [Set.mem_setOf_eq, Set.mem_insert_iff, Set.mem_singleton_iff]
  constructor
  · rintro ⟨d, e, hz, st, rfl⟩
    simp only [calculateTorinoScale]
    split_ifs <;> norm_num
  · rintro (rfl | rfl | rfl | rfl | rfl | rfl | rfl | rfl | rfl)
    · exact ⟨0, 0, false, false, by norm_num [calculateTorinoScale]⟩
    · exact ⟨0, 0, true, false, by norm_num [calculateTorinoScale]⟩
    · exact ⟨2, 0, true, false, by norm_num [calculateTorinoScale]⟩
    · exact ⟨0, 0, false, true, by norm_num [calculateTorinoScale]⟩
    · exact ⟨2, 0, false, true, by norm_num [calculateTorinoScale]⟩
    · exact ⟨0, 2000, false, true, by norm_num [calculateTorinoScale]⟩
    · exact ⟨0, 20000, false, true, by norm_num [calculateTorinoScale]⟩
    · exact ⟨0, 200000, false, true, by norm_num [calculateTorinoScale]⟩
    · exact ⟨0, 2000000, false, true, by norm_num [calculateTorinoScale]⟩

/-- Claim C2 (code bug): the pipeline performs no input validation.  On the
invalid record `rawBad` (diameter -1 km) `enrichAsteroid` silently returns
an enriched record whose derived impact energy is negative, instead of
failing fast with a validation error as the spec requires. -/
theorem enrich_silently_propagates_invalid :
    (enrichAsteroid rawBad).impact.energy_megatons < 0 := by
  have h : (enrichAsteroid rawBad).impact.energy_megatons =
      calculateImpactEnergy (-1) 20 := rfl
  have hpi := Real.pi_pos
  rw [h]
  simp only [calculateImpactEnergy]
  nlinarith [hpi]

/-- Claim C3, counterexample: `calculateImpactEnergy 1 20` is below 63000
megatons, nowhere near the claimed 3.1329e5 megatons. -/
theorem impactEnergy_fixture_counterexample :
    calculateImpactEnergy 1 20 < 63000 := by
  rw [impactEnergy_one_twenty]
  linarith [Real.pi_lt_d6]

/-- Claim C3, amended: `calculateImpactEnergy 1 20` equals
31250000·pi/1569, which lies strictly between 62571 and 62572 megatons
(about 6.2572e4, matching the spec's worked derivation, not 3.1329e5). -/
theorem impactEnergy_fixture_amended :
    62571 < calculateImpactEnergy 1 20 ∧ calculateImpactEnergy 1 20 < 62572 := by
  rw [impactEnergy_one_twenty]
  constructor
  · linarith [Real.pi_gt_d6]
  · linarith [Real.pi_lt_d6]

/-- Claim C9: enrichment only adds the derived fields; every raw field is
present unchanged on the enriched record. -/
theorem enrich_preserves_raw_fields (a : RawAsteroid) :
    (enrichAsteroid a).id = a.id ∧
    (enrichAsteroid a).name = a.name ∧
    (enrichAsteroid a).nasa_jpl_url = a.nasa_jpl_url ∧
    (enrichAsteroid a).absolute_magnitude_h = a.absolute_magnitude_h ∧
    (enrichAsteroid a).estimated_diameter_km_min = a.estimated_diameter_km_min ∧
    (enrichAsteroid a).estimated_diameter_km_max = a.estimated_diameter_km_max ∧
    (enrichAsteroid a).estimated_diameter_m_min = a.estimated_diameter_m_min ∧
    (enrichAsteroid a).estimated_diameter_m_max = a.estimated_diameter_m_max ∧
    (enrichAsteroid a).estimated_diameter_mi_min = a.estimated_diameter_mi_min ∧
    (enrichAsteroid a).estimated_diameter_mi_max = a.estimated_diameter_mi_max ∧
    (enrichAsteroid a).estimated_diameter_ft_min = a.estimated_diameter_ft_min ∧
    (enrichAsteroid a).estimated_diameter_ft_max = a.estimated_diameter_ft_max ∧
    (enrichAsteroid a).is_potentially_hazardous_asteroid =
      a.is_potentially_hazardous_asteroid ∧
    (enrichAsteroid a).is_sentry_object = a.is_sentry_object ∧
    (enrichAsteroid a).close_approach_date = a.close_approach_date ∧
    (enrichAsteroid a).close_approach_date_full = a.close_approach_date_full ∧
    (enrichAsteroid a).epoch_date_close_approach = a.epoch_date_close_approach ∧
    (enrichAsteroid a).relative_velocity_km_s = a.relative_velocity_km_s ∧
    (enrichAsteroid a).relative_velocity_km_h = a.relative_velocity_km_h ∧
    (enrichAsteroid a).relative_velocity_mph = a.relative_velocity_mph ∧
    (enrichAsteroid a).miss_distance_au = a.miss_distance_au ∧
    (enrichAsteroid a).miss_distance_lunar = a.miss_distance_lunar ∧
    (enrichAsteroid a).miss_distance_km = a.miss_distance_km ∧
    (enrichAsteroid a).miss_distance_mi = a.miss_distance_mi ∧
    (enrichAsteroid a).orbiting_body = a.orbiting_body :=
  ⟨rfl, rfl, rfl, rfl, rfl, rfl, rfl, rfl, rfl, rfl, rfl, rfl, rfl,
   rfl, rfl, rfl, rfl, rfl, rfl, rfl, rfl, rfl, rfl, rfl, rfl⟩

/-- Claim C7: for fixed diameter and flags, `calculateTorinoScale` is
monotonically non-decreasing in the energy argument. -/
theorem torinoScale_mono_energy (d : ℝ) (hz st : Bool) {e₁ e₂ : ℝ}
    (h : e₁ ≤ e₂) :
    calculateTorinoScale d e₁ hz st ≤ calculateTorinoScale d e₂ hz st := by
  simp only [calculateTorinoScale]
  split_ifs <;> linarith

/-- Witness for claim C7 at diameter 0, energies 0 and 1, flags off. -/
theorem torinoScale_mono_energy_witness :
    (0 : ℝ) ≤ 1 ∧
      calculateTorinoScale 0 0 false false ≤ calculateTorinoScale 0 1 false false :=
  ⟨by norm_num, torinoScale_mono_energy 0 false false (by norm_num)⟩

/-- Claim C8: `calculateImportanceScore` always returns an integer between
0 and 10 (the sum of the non-negative contributions, clamped at 10). -/
theorem importanceScore_int_bounds (d v m : ℝ) (hz st : Bool) :
    (∃ n : ℤ, calculateImportanceScore d v m hz st = (n : ℝ)) ∧
    0 ≤ calculateImportanceScore d v m hz st ∧
    calculateImportanceScore d v m hz st ≤ 10 := by
  obtain ⟨a, ha, ha1⟩ :
      ∃ a : ℤ, (if d > 10 then (4:ℝ) else if d > 1 then 3
        else if d > 0.5 then 2 else 1) = (a : ℝ) ∧ 1 ≤ (a : ℝ) := by
    split_ifs
    exacts [⟨4, by norm_num⟩, ⟨3, by norm_num⟩, ⟨2, by norm_num⟩,
      ⟨1, by norm_num⟩]
  obtain ⟨b, hb, hb0⟩ :
      ∃ b : ℤ, (if v > 25 then (2:ℝ) else if v > 15 then 1 else 0) = (b : ℝ) ∧
        0 ≤ (b : ℝ) := by
    split_ifs
    exacts [⟨2, by norm_num⟩, ⟨1, by norm_num⟩, ⟨0, by norm_num⟩]
  obtain ⟨c, hc, hc0⟩ :
      ∃ c : ℤ, (if m < 0.05 then (2:ℝ) else if m < 0.2 then 1 else 0) = (c : ℝ) ∧
        0 ≤ (c : ℝ) := by
    split_ifs
    exacts [⟨2, by norm_num⟩, ⟨1, by norm_num⟩, ⟨0, by norm_num⟩]
  obtain ⟨f, hf, hf0⟩ :
      ∃ f : ℤ, (if st then (3:ℝ) else if hz then 2 else 0) = (f : ℝ) ∧
        0 ≤ (f : ℝ) := by
    split_ifs
    exacts [⟨3, by norm_num⟩, ⟨2, by norm_num⟩, ⟨0, by norm_num⟩]
  simp only [calculateImportanceScore]
  rw [ha, hb, hc, hf]
  refine ⟨?_, le_min (by linarith) (by norm_num), min_le_right _ _⟩
  rcases le_total ((0:ℝ) + a + b + c + f) 10 with hle | hle
  · exact ⟨a + b + c + f, by rw [min_eq_left hle]; push_cast; ring⟩
  · exact ⟨10, by rw [min_eq_right hle]; norm_num⟩

/-- Fixture "a" scores 5: diameter 2 (+3), velocity 20 (+1), miss 0.1 (+1). -/
lemma importance_rawA : (enrichAsteroid rawA).importance_score = 5 := by
  norm_num [enrichAsteroid, rawA, rawZero, calculateImportanceScore, min_def]

/-- Fixture "b" scores 5, identically to "a". -/
lemma importance_rawB : (enrichAsteroid rawB).importance_score = 5 := by
  norm_num [enrichAsteroid, rawB, rawZero, calculateImportanceScore, min_def]

/-- Fixture "c" scores 8: diameter 20 (+4), velocity 30 (+2), miss 0.01 (+2). -/
lemma importance_rawC : (enrichAsteroid rawC).importance_score = 8 := by
  norm_num [enrichAsteroid, rawC, rawZero, calculateImportanceScore, min_def]

/-- The comparator relation is total. -/
instance : IsTotal AsteroidData rankLE :=
  ⟨fun a b => by
    simp only [rankLE, sub_nonpos]
    exact le_total _ _⟩

/-- The comparator relation is transitive. -/
instance : IsTrans AsteroidData rankLE :=
  ⟨fun a b c hab hbc => by
    simp only [rankLE, sub_nonpos] at *
    exact le_trans hbc hab⟩

/-- Claim C1: `enrichAndRank` sorts the enriched records by importance
score descending with a stable sort: the output is pairwise descending in
`importance_score`; any two enriched records with equal scores that occur
as a (non-contiguous) pair of the enriched input occur in the same order in
the output; and on the concrete fixtures with scores 5, 5, 8 the output
order is c, a, b. -/
theorem enrichAndRank_sorted_stable :
    (∀ data : List RawAsteroid,
      (enrichAndRank data).Sorted
        (fun a b => b.importance_score ≤ a.importance_score)) ∧
    (∀ (data : List RawAsteroid) (x y : AsteroidData),
      x.importance_score = y.importance_score →
      [x, y] <+ data.map enrichAsteroid →
      [x, y] <+ enrichAndRank data) ∧
    enrichAndRank [rawA, rawB, rawC] =
      [enrichAsteroid rawC, enrichAsteroid rawA, enrichAsteroid rawB] := by
  refine ⟨?_, ?_, ?_⟩
  · intro data
    have hs := List.sorted_insertionSort rankLE (data.map enrichAsteroid)
    exact hs.imp fun hab => by
      simpa only [rankLE, sub_nonpos] using hab
  · intro data x y hxy hsub
    refine List.pair_sublist_insertionSort ?_ hsub
    simp only [rankLE, hxy, sub_self, le_refl]
  · have h1 : ¬ rankLE (enrichAsteroid rawB) (enrichAsteroid rawC) := by
      simp only [rankLE, importance_rawB, importance_rawC, sub_nonpos]
      norm_num
    have h2 : ¬ rankLE (enrichAsteroid rawA) (enrichAsteroid rawC) := by
      simp only [rankLE, importance_rawA, importance_rawC, sub_nonpos]
      norm_num
    have h3 : rankLE (enrichAsteroid rawA) (enrichAsteroid rawB) := by
      simp only [rankLE, importance_rawA, importance_rawB, sub_self, le_refl]
    simp only [enrichAndRank, List.map_cons, List.map_nil,
      List.insertionSort, List.orderedInsert]
    rw [if_neg h1]
    simp only [List.orderedInsert]
    rw [if_neg h2, if_pos h3]

/-- Witness for claim C1's stability part: the equal-scored fixtures "a"
and "b" keep their input order in the ranked output. -/
theorem enrichAndRank_sorted_stable_witness :
    [enrichAsteroid rawA, enrichAsteroid rawB] <+ enrichAndRank [rawA, rawB] :=
  enrichAndRank_sorted_stable.2.1 [rawA, rawB] _ _
    (by rw [importance_rawA, importance_rawB])
    (by simp only [List.map_cons, List.map_nil]
        exact List.Sublist.refl _)

end AstroNuts

end
